import Mathlib

/-!
Shallow embedding of the flight-search MCP server (file `src/server.py`).

The embedding models:
* `SearchRequest`, the parameters of the `search_flights` tool together with
  the declared Python defaults (`src/server.py` lines 21-31);
* `UpstreamQuery` and `buildParams`, the outgoing query map (lines 49-100);
* `Json` together with small Python-semantics helpers (`dict.get`,
  truthiness, `len`, slicing, `+`, thousands-separator formatting,
  `str.join`, `str.replace`, and `json.dumps` with `indent=2` and
  `ensure_ascii=False`);
* `handleParsed` and `searchFlights`, the response handling (lines 111-179).
  The network exchange itself is abstracted by an `UpstreamOutcome` value
  (connection/timeout/non-2xx failures raise `httpx.HTTPError`, a 2xx
  non-JSON body raises `json.JSONDecodeError`, and a 2xx JSON body parses to
  a `Json` value); Python exceptions raised while the body inspects the
  parsed document are modelled with the `Except String` monad and caught at
  the function boundary, mirroring the `except Exception` clause.
-/

namespace FlightSearch

/-- JSON values as produced by `response.json()` in the source.  Upstream
numbers are modelled as integers (the fare components of the data model are
integer amounts of KRW).  Objects are association lists in document order;
keys are assumed distinct, as `json.loads` collapses duplicates. -/
inductive Json where
  | null : Json
  | bool (b : Bool) : Json
  | int (n : Int) : Json
  | str (s : String) : Json
  | arr (items : List Json) : Json
  | obj (fields : List (String × Json)) : Json

/-- Python type name of a JSON value, used in exception messages. -/
def pyType : Json → String
  | .null => "NoneType"
  | .bool _ => "bool"
  | .int _ => "int"
  | .str _ => "str"
  | .arr _ => "list"
  | .obj _ => "dict"

/-- First binding of a key in an association list (object keys are assumed
distinct, so first and last binding agree). -/
def jlookup : List (String × Json) → String → Option Json
  | [], _ => none
  | (k, v) :: rest, key => if k = key then some v else jlookup rest key

/-- Python `j.get(key, default)`: on a dict, the stored value or the default;
on any other value an `AttributeError` is raised.  (Exception text follows
Python, with the quote marks around names elided.) -/
def pyGet (j : Json) (key : String) (d : Json) : Except String Json :=
  match j with
  | .obj fields => Except.ok ((jlookup fields key).getD d)
  | _ => Except.error ("AttributeError: " ++ pyType j ++ " object has no attribute get")

/-- Python truthiness of a JSON value (`if not goods`, `if event_fares`). -/
def pyTruthy : Json → Bool
  | .null => false
  | .bool b => b
  | .int n => decide (n ≠ 0)
  | .str s => decide (s ≠ "")
  | .arr [] => false
  | .arr (_ :: _) => true
  | .obj [] => false
  | .obj (_ :: _) => true

/-- Python `x == "literal"` for a JSON value against a string literal. -/
def jsonEqStr (j : Json) (s : String) : Bool :=
  match j with
  | .str t => t == s
  | _ => false

/-- A JSON value seen as a Python `int` operand: `bool` is an `int` subclass. -/
def pyIntLike : Json → Option Int
  | .int n => some n
  | .bool b => some (if b then 1 else 0)
  | _ => none

/-- Python `a + b` on JSON values: numeric addition on `int`/`bool`,
concatenation on two strings or two lists, otherwise a `TypeError`. -/
def pyAdd (a b : Json) : Except String Json :=
  match pyIntLike a, pyIntLike b with
  | some x, some y => Except.ok (Json.int (x + y))
  | _, _ =>
    match a, b with
    | .str s, .str t => Except.ok (Json.str (s ++ t))
    | .arr s, .arr t => Except.ok (Json.arr (s ++ t))
    | _, _ =>
      Except.error ("TypeError: unsupported operand types for +: "
        ++ pyType a ++ " and " ++ pyType b)

/-- Python `len(j)`: defined on lists, strings and dicts. -/
def pyLen (j : Json) : Except String Nat :=
  match j with
  | .arr l => Except.ok l.length
  | .str s => Except.ok s.length
  | .obj f => Except.ok f.length
  | _ => Except.error ("TypeError: object of type " ++ pyType j ++ " has no len()")

/-- Python `j[:n]` followed by iteration, as used in `enumerate(goods[:10])`:
a list yields its first `n` items, a string its first `n` characters (each a
one-character string), anything else raises. -/
def pySliceList (j : Json) (n : Nat) : Except String (List Json) :=
  match j with
  | .arr l => Except.ok (l.take n)
  | .str s => Except.ok ((s.data.take n).map (fun c => Json.str (String.mk [c])))
  | .obj _ => Except.error "TypeError: unhashable type: slice"
  | _ => Except.error ("TypeError: " ++ pyType j ++ " object is not subscriptable")

/-- Python `j[0]` (`event_fares[0]`), reached only when `j` is truthy. -/
def pyIndexZero (j : Json) : Except String Json :=
  match j with
  | .arr (x :: _) => Except.ok x
  | .arr [] => Except.error "IndexError: list index out of range"
  | .str s =>
    match s.data with
    | [] => Except.error "IndexError: string index out of range"
    | c :: _ => Except.ok (Json.str (String.mk [c]))
  | .obj _ => Except.error "KeyError: 0"
  | _ => Except.error ("TypeError: " ++ pyType j ++ " object is not subscriptable")

/-- The apostrophe character, used by Python `repr` of strings. -/
def sq : String := String.mk [Char.ofNat 39]

/-- Python `sep.join(parts)` (`"\n".join(results)`). -/
def pyJoin (sep : String) : List String → String
  | [] => ""
  | [s] => s
  | s :: rest => s ++ sep ++ pyJoin sep rest

mutual

/-- Python `repr` of a JSON value (string escaping inside `repr` is elided;
the formatter only ever interpolates scalars). -/
def pyRepr : Json → String
  | .null => "None"
  | .bool true => "True"
  | .bool false => "False"
  | .int n => toString n
  | .str s => sq ++ s ++ sq
  | .arr l => "[" ++ pyJoin ", " (pyReprItems l) ++ "]"
  | .obj l => "\x7b" ++ pyJoin ", " (pyReprEntries l) ++ "\x7d"

/-- `repr` of the items of a JSON array. -/
def pyReprItems : List Json → List String
  | [] => []
  | j :: js => pyRepr j :: pyReprItems js

/-- `repr` of the entries of a JSON object. -/
def pyReprEntries : List (String × Json) → List String
  | [] => []
  | (k, v) :: rest => (sq ++ k ++ sq ++ ": " ++ pyRepr v) :: pyReprEntries rest

end

/-- Python `str(j)` / f-string interpolation of a JSON value. -/
def pyStr : Json → String
  | .str s => s
  | j => pyRepr j

/-- Reversed-digit comma grouping: inserts a comma after every three digits
of the (reversed) digit list. -/
def commaRev : List Char → List Char
  | a :: b :: c :: d :: rest => a :: b :: c :: ',' :: commaRev (d :: rest)
  | l => l

/-- Python `f"{n:,}"` for a natural number. -/
def natCommaStr (n : Nat) : String :=
  String.mk (commaRev (Nat.toDigits 10 n).reverse).reverse

/-- Python `f"{n:,}"` for an integer. -/
def intCommaStr (n : Int) : String :=
  if n < 0 then "-" ++ natCommaStr n.natAbs else natCommaStr n.natAbs

/-- Python `f"{j:,}"` on a JSON value: thousands-separator formatting is
defined on `int` (and its subclass `bool`), and raises otherwise. -/
def pyFormatComma (j : Json) : Except String String :=
  match pyIntLike j with
  | some n => Except.ok (intCommaStr n)
  | none => Except.error ("TypeError: unsupported format string passed to "
      ++ pyType j ++ ".__format__")

/-- Whether the first list starts the second one (character match). -/
def headMatches : List Char → List Char → Bool
  | [], _ => true
  | _ :: _, [] => false
  | a :: as, b :: bs => a == b && headMatches as bs

/-- Python `s.replace(old, new)` on character lists: scan left to
right, replacing each non-overlapping occurrence of `old` (the source only
calls this with the non-empty pattern `"-"`). -/
def replaceList (old new : List Char) : List Char → List Char
  | [] => []
  | c :: cs =>
    if h : 0 < old.length ∧ headMatches old (c :: cs) then
      new ++ replaceList old new (List.drop old.length (c :: cs))
    else
      c :: replaceList old new cs
termination_by l => l.length
decreasing_by
  · have h1 := h.1
    simp only [List.length_drop, List.length_cons]
    omega
  · simp only [List.length_cons]
    omega

/-- Python `s.replace(old, new)` (`departure_date.replace("-", "")`). -/
def pyStrReplace (s old new : String) : String :=
  String.mk (replaceList old.data new.data s.data)

/-- Modelled from the words of the spec (section 8): "the normalized
upstream token equals the input with hyphens removed".  Compared against
the `str.replace` call of the source in the claim about date
normalization. -/
def removeHyphenAux : List Char → List Char
  | [] => []
  | c :: cs => if c = '-' then removeHyphenAux cs else c :: removeHyphenAux cs

/-- The input string with every hyphen deleted (spec wording). -/
def removeHyphens (s : String) : String := String.mk (removeHyphenAux s.data)

/-- The parameters of `search_flights`, with the declared Python defaults
(`src/server.py` lines 21-31).  `return_date = none` models the Python value
`None`; in the source the parameters are dynamically typed keyword arguments
validated against these annotations. -/
structure SearchRequest where
  trip_type : String := "RT"
  departure_city : String := "ICN"
  arrival_city : String := "FUK"
  departure_date : String := "2026-03-03"
  return_date : Option String := some "2026-03-09"
  adults : Int := 1
  children : Int := 0
  infants : Int := 0
  seat_class : String := "Y"
  raw_json : Bool := false

/-- The outgoing query map (`params`, `src/server.py` lines 59-100).  The
field `cacheBust` is the query parameter named `_` in the source. -/
structure UpstreamQuery where
  skin : String
  resId : String
  soto : String
  trip : String
  startDt : String
  endDt : String
  sDate1 : String
  sDate2 : String
  sDate3 : String
  sCity1 : String
  eCity1 : String
  eCity1NtDesc : String
  sCity2 : String
  eCity2 : String
  sCity3 : String
  eCity3 : String
  adt : Int
  chd : Int
  inf : Int
  filterAirLine : String
  filterViaNo : String
  seatType : String
  best : String
  sgc : String
  rgc : String
  partnerCode : String
  eventNum : String
  classJoinNum : String
  partnerNum : String
  fareType : String
  eventInd : String
  splitNo : String
  epricingYn : String
  blockGoodsYn : String
  summary : String
  schedule : String
  SGMap : String
  Host : String
  passDataYn : String
  cacheBust : String

/-- Request construction (`src/server.py` lines 49-100).  `s_dt` strips the
hyphens from the departure date; `e_dt` is the stripped return date when
`return_date` is truthy (not `None` and not empty) and the empty string
otherwise; the return-leg city pair is filled only for round trips. -/
def buildParams (req : SearchRequest) (timestamp : String) : UpstreamQuery :=
  { skin := "onlinetour"
    resId := ""
    soto := "N"
    trip := req.trip_type
    startDt := pyStrReplace req.departure_date "-" ""
    endDt :=
      match req.return_date with
      | some r => if r = "" then "" else pyStrReplace r "-" ""
      | none => ""
    sDate1 := ""
    sDate2 := ""
    sDate3 := ""
    sCity1 := req.departure_city
    eCity1 := req.arrival_city
    eCity1NtDesc := ""
    sCity2 := if req.trip_type = "RT" then req.arrival_city else ""
    eCity2 := if req.trip_type = "RT" then req.departure_city else ""
    sCity3 := ""
    eCity3 := ""
    adt := req.adults
    chd := req.children
    inf := req.infants
    filterAirLine := ""
    filterViaNo := ""
    seatType := req.seat_class
    best := "Y"
    sgc := ""
    rgc := ""
    partnerCode := ""
    eventNum := ""
    classJoinNum := ""
    partnerNum := ""
    fareType := "Y"
    eventInd := ""
    splitNo := "1000"
    epricingYn := "N"
    blockGoodsYn := "Y"
    summary := "N"
    schedule := "Y"
    SGMap := "Y"
    Host := "Y"
    passDataYn := "N"
    cacheBust := timestamp }

/-- Four hexadecimal digits, used by `json.dumps` control-character escapes. -/
def hex4 (n : Nat) : String :=
  String.mk [Nat.digitChar (n / 4096 % 16), Nat.digitChar (n / 256 % 16),
    Nat.digitChar (n / 16 % 16), Nat.digitChar (n % 16)]

/-- `json.dumps` escaping of one character with `ensure_ascii=False`: quote,
backslash and control characters are escaped, every other character (in
particular all non-ASCII characters) is emitted verbatim. -/
def jsonEscapeChar (c : Char) : String :=
  if c = '"' then "\\\""
  else if c = '\\' then "\\\\"
  else if c = '\n' then "\\n"
  else if c = '\t' then "\\t"
  else if c = '\r' then "\\r"
  else if c = '\x08' then "\\b"
  else if c = '\x0c' then "\\f"
  else if c.toNat < 32 then "\\u" ++ hex4 c.toNat
  else String.mk [c]

/-- `json.dumps` rendering of a string literal. -/
def jsonQuote (s : String) : String :=
  "\"" ++ String.join (s.data.map jsonEscapeChar) ++ "\""

/-- `n` spaces. -/
def spaces (n : Nat) : String := String.mk (List.replicate n ' ')

mutual

/-- `json.dumps(j, indent=2, ensure_ascii=False)` at nesting indentation
`ind`: scalars are atoms, non-empty containers put every element on its own
line indented two further spaces, empty containers stay on one line. -/
def dumpJson (ind : Nat) : Json → String
  | .null => "null"
  | .bool true => "true"
  | .bool false => "false"
  | .int n => toString n
  | .str s => jsonQuote s
  | .arr [] => "[]"
  | .arr (x :: xs) =>
    "[\n" ++ pyJoin ",\n" (dumpItems (ind + 2) (x :: xs)) ++ "\n" ++ spaces ind ++ "]"
  | .obj [] => "\x7b\x7d"
  | .obj (f :: fs) =>
    "\x7b\n" ++ pyJoin ",\n" (dumpEntries (ind + 2) (f :: fs)) ++ "\n" ++ spaces ind ++ "\x7d"

/-- Array items of `json.dumps`, each on its own indented line. -/
def dumpItems (ind : Nat) : List Json → List String
  | [] => []
  | j :: js => (spaces ind ++ dumpJson ind j) :: dumpItems ind js

/-- Object entries of `json.dumps`, each `"key": value` on its own line. -/
def dumpEntries (ind : Nat) : List (String × Json) → List String
  | [] => []
  | (k, v) :: rest => (spaces ind ++ jsonQuote k ++ ": " ++ dumpJson ind v) :: dumpEntries ind rest

end

/-- `json.dumps(data, indent=2, ensure_ascii=False)` (`src/server.py` line 123). -/
def pyJsonDumps (data : Json) : String := dumpJson 0 data

/-- `"-" * n` and the like: `n` hyphens (`src/server.py` lines 137 and 169). -/
def dashes (n : Nat) : String := String.mk (List.replicate n '-')

/-- The body of the `for i, item in enumerate(goods[:10])` loop
(`src/server.py` lines 139-168): one numbered offer block.  Each `← `-style
step is an `Except.bind` so that a Python exception raised by a dynamic
access propagates, exactly as in the source. -/
def formatBlock (i : Nat) (item : Json) : Except String String :=
  Except.bind (pyGet item "AirLineKor" (Json.str "Unknown Airline")) fun airline =>
  Except.bind (pyGet item "StartRoutine" (Json.str "")) fun start_routine =>
  Except.bind (pyGet item "ReturnRoutine" (Json.str "")) fun return_routine =>
  Except.bind (pyGet item "SaleFare" (Json.int 0)) fun sale_fare =>
  Except.bind (pyGet item "Tax" (Json.int 0)) fun tax =>
  Except.bind (pyGet item "Qcharge" (Json.int 0)) fun q_charge =>
  Except.bind (pyAdd sale_fare tax) fun fare_plus_tax =>
  Except.bind (pyAdd fare_plus_tax q_charge) fun total_base_fare =>
  Except.bind (pyGet item "EventFareList" (Json.obj [])) fun eventFareList =>
  Except.bind (pyGet eventFareList "EventFare" (Json.arr [])) fun event_fares =>
  Except.bind
    (if pyTruthy event_fares then
      Except.bind (pyIndexZero event_fares) fun best_event =>
      Except.bind (pyGet best_event "TotalSaleFare" total_base_fare) fun best_total =>
      Except.bind (pyFormatComma best_total) fun best_total_txt =>
      Except.bind (pyGet best_event "FareTypeDesc" Json.null) fun best_desc =>
      Except.ok (" (Card Discount: " ++ best_total_txt ++ " KRW - " ++ pyStr best_desc ++ ")")
    else Except.ok "") fun cheapest_event =>
  Except.bind (pyGet item "AdultBagInfo" (Json.str "N/A")) fun baggage =>
  Except.bind (pyFormatComma total_base_fare) fun price_txt =>
  Except.bind (pyGet item "FareTypeDesc" (Json.str "")) fun fare_type_desc =>
  Except.bind (pyGet item "FareFix" (Json.str "")) fun fare_fix =>
  Except.ok (pyJoin "\n"
    ["[" ++ toString (i + 1) ++ "] " ++ pyStr airline,
     "   Route: " ++ pyStr start_routine ++ " / " ++ pyStr return_routine,
     "   Price: " ++ price_txt ++ " KRW" ++ cheapest_event,
     "   Baggage: " ++ pyStr baggage,
     "   Fare Type: " ++ pyStr fare_type_desc ++ " (" ++ pyStr fare_fix ++ ")"])

/-- The whole offer loop: each iteration appends the offer block and a
30-hyphen separator to `results` (`src/server.py` lines 139-169). -/
def formatBlocks (i : Nat) : List Json → Except String (List String)
  | [] => Except.ok []
  | item :: rest =>
    Except.bind (formatBlock i item) fun b =>
    Except.bind (formatBlocks (i + 1) rest) fun bs =>
    Except.ok (b :: dashes 30 :: bs)

/-- Handling of a successfully parsed JSON body (`src/server.py` lines
122-174): the `raw_json` passthrough, the `GoodsSummary.errCnt` check, the
empty-offer-list message, and the formatted digest of the first ten offers
with the remainder count. -/
def handleParsed (raw_json : Bool) (data : Json) : Except String String :=
  if raw_json then
    Except.ok (pyJsonDumps data)
  else
    Except.bind (pyGet data "GoodsSummary" (Json.obj [])) fun summary_info =>
    Except.bind (pyGet summary_info "errCnt" Json.null) fun errCnt =>
    if jsonEqStr errCnt "OK" = false then
      Except.bind (pyGet summary_info "errMsg" (Json.str "Unknown error")) fun errMsg =>
      Except.ok ("API Error: " ++ pyStr errMsg)
    else
      Except.bind (pyGet data "GoodsList" (Json.obj [])) fun goodsList =>
      Except.bind (pyGet goodsList "Goods" (Json.arr [])) fun goods =>
      if pyTruthy goods = false then
        Except.ok "No flights found for the given criteria."
      else
        Except.bind (pyLen goods) fun n =>
        Except.bind (pySliceList goods 10) fun top =>
        Except.bind (formatBlocks 0 top) fun blocks =>
        Except.ok (pyJoin "\n"
          (("Found " ++ toString n ++ " flight offers.") :: dashes 50 ::
            (blocks ++
              (if 10 < n then ["... and " ++ toString (n - 10) ++ " more results."] else []))))

/-- Result of the HTTP exchange of `search_flights` (`src/server.py` lines
112-120): a connection failure, timeout or non-2xx status raises
`httpx.HTTPError` (`raise_for_status`); a 2xx body that is not JSON raises
`json.JSONDecodeError` (carrying the response text); a 2xx JSON body parses
to a `Json` document; any other exception raised around the request is
covered by the final `except Exception` clause. -/
inductive UpstreamOutcome where
  | httpError (msg : String) : UpstreamOutcome
  | nonJsonBody (text : String) : UpstreamOutcome
  | parsed (data : Json) : UpstreamOutcome
  | otherException (msg : String) : UpstreamOutcome

/-- The `search_flights` tool (`src/server.py` lines 20-179): builds the
query parameters, performs the exchange summarised by `outcome`, and turns
every failure path into a returned string.  A Python exception raised while
inspecting the parsed document (an `Except.error` of `handleParsed`) is
caught by the `except Exception` clause at the boundary. -/
def searchFlights (req : SearchRequest) (timestamp : String)
    (outcome : UpstreamOutcome) : String :=
  let _params := buildParams req timestamp
  match outcome with
  | .httpError msg => "Error fetching flight data: " ++ msg
  | .nonJsonBody text =>
    "Error: API returned non-JSON response. Content start: " ++ text.take 200
  | .parsed data =>
    match handleParsed req.raw_json data with
    | .ok s => s
    | .error e => "An unexpected error occurred: " ++ e
  | .otherException msg => "An unexpected error occurred: " ++ msg

/-- The request with every parameter left at its declared default. -/
def defaultRequest : SearchRequest := {}

/-- A mocked offer list of 15 items (airlines `A1` ... `A15`). -/
def goods15 : List Json :=
  [Json.obj [("AirLineKor", Json.str "A1")],
   Json.obj [("AirLineKor", Json.str "A2")],
   Json.obj [("AirLineKor", Json.str "A3")],
   Json.obj [("AirLineKor", Json.str "A4")],
   Json.obj [("AirLineKor", Json.str "A5")],
   Json.obj [("AirLineKor", Json.str "A6")],
   Json.obj [("AirLineKor", Json.str "A7")],
   Json.obj [("AirLineKor", Json.str "A8")],
   Json.obj [("AirLineKor", Json.str "A9")],
   Json.obj [("AirLineKor", Json.str "A10")],
   Json.obj [("AirLineKor", Json.str "A11")],
   Json.obj [("AirLineKor", Json.str "A12")],
   Json.obj [("AirLineKor", Json.str "A13")],
   Json.obj [("AirLineKor", Json.str "A14")],
   Json.obj [("AirLineKor", Json.str "A15")]]

/-- A mocked upstream response: summary `errCnt = "OK"` and the 15 offers. -/
def data15 : Json :=
  Json.obj [("GoodsSummary", Json.obj [("errCnt", Json.str "OK")]),
    ("GoodsList", Json.obj [("Goods", Json.arr goods15)])]

/-- The offer block the formatter renders for the mocked offer `Ai`. -/
def sampleBlock (i : Nat) : String :=
  "[" ++ toString i ++ "] A" ++ toString i ++
    "\n   Route:  / \n   Price: 0 KRW\n   Baggage: N/A\n   Fare Type:  ()"

/-- The 10 offer blocks (each followed by the 30-hyphen separator) the
formatter produces from `goods15`. -/
def blocks15 : List String :=
  [sampleBlock 1, dashes 30, sampleBlock 2, dashes 30, sampleBlock 3, dashes 30,
   sampleBlock 4, dashes 30, sampleBlock 5, dashes 30, sampleBlock 6, dashes 30,
   sampleBlock 7, dashes 30, sampleBlock 8, dashes 30, sampleBlock 9, dashes 30,
   sampleBlock 10, dashes 30]

/-- The mocked offer of the fare-computation test: `saleFare=500000`,
`tax=50000`, `qCharge=10000`, no discount list. -/
def offer560 : Json :=
  Json.obj [("SaleFare", Json.int 500000), ("Tax", Json.int 50000),
    ("Qcharge", Json.int 10000)]

/-- A mocked response whose summary reports a business error. -/
def dataNoFares : Json :=
  Json.obj [("GoodsSummary",
    Json.obj [("errCnt", Json.str "ERROR"), ("errMsg", Json.str "No fares found")])]

/-- A mocked response with `errCnt = "OK"` and an empty offer list. -/
def dataEmptyGoods : Json :=
  Json.obj [("GoodsSummary", Json.obj [("errCnt", Json.str "OK")]),
    ("GoodsList", Json.obj [("Goods", Json.arr [])])]

/-- A parsed document with non-ASCII (Korean) content, used to exhibit the
`ensure_ascii=False` behaviour of the raw-JSON passthrough. -/
def koreanSample : Json :=
  Json.obj [("errMsg", Json.str "요금 없음"), ("cnt", Json.int 5)]

/-! ### Helper lemmas -/

@[simp]
theorem exceptBind_ok {α β ε : Type} (a : α) (f : α → Except ε β) :
    Except.bind (Except.ok a) f = f a := rfl

@[simp]
theorem exceptBind_error {α β ε : Type} (e : ε) (f : α → Except ε β) :
    Except.bind (Except.error e : Except ε α) f = Except.error e := rfl

theorem replaceList_dash (l : List Char) :
    replaceList ['-'] [] l = removeHyphenAux l := by
  induction l with
  | nil => simp [replaceList, removeHyphenAux]
  | cons c cs ih =>
    by_cases hc : c = '-'
    · subst hc
      rw [replaceList]
      simp [headMatches, removeHyphenAux, ih]
    · have hc2 : ¬ ('-' = c) := fun h => hc h.symm
      rw [replaceList]
      simp [headMatches, removeHyphenAux, hc, hc2, ih]

theorem pyStrReplace_dash (s : String) :
    pyStrReplace s "-" "" = removeHyphens s := by
  unfold pyStrReplace removeHyphens
  rw [show ("-" : String).data = ['-'] from rfl,
    show ("" : String).data = ([] : List Char) from rfl, replaceList_dash]

theorem formatBlocks_spec (items : List Json) :
    ∀ (k : Nat) (bs : List String), formatBlocks k items = Except.ok bs →
      bs.length = 2 * items.length
      ∧ ∀ j item, items[j]? = some item →
          ∃ b, formatBlock (k + j) item = Except.ok b
            ∧ bs[2 * j]? = some b ∧ bs[2 * j + 1]? = some (dashes 30) := by
  induction items with
  | nil =>
    intro k bs h
    simp only [formatBlocks, Except.ok.injEq] at h
    subst h
    refine ⟨rfl, ?_⟩
    intro j item hj
    simp at hj
  | cons it rest ih =>
    intro k bs h
    simp only [formatBlocks] at h
    cases hb : formatBlock k it with
    | error e => rw [hb] at h; simp at h
    | ok b =>
      rw [hb] at h
      simp only [exceptBind_ok] at h
      cases hrest : formatBlocks (k + 1) rest with
      | error e => rw [hrest] at h; simp at h
      | ok bs2 =>
        rw [hrest] at h
        simp only [exceptBind_ok, Except.ok.injEq] at h
        subst h
        obtain ⟨hlen, hidx⟩ := ih (k + 1) bs2 hrest
        refine ⟨?_, ?_⟩
        · simp only [List.length_cons, hlen]
          omega
        · intro j item hj
          cases j with
          | zero =>
            simp only [List.getElem?_cons_zero, Option.some.injEq] at hj
            subst hj
            exact ⟨b, by simpa using hb, by simp, by simp⟩
          | succ j2 =>
            have hj2 : rest[j2]? = some item := by simpa using hj
            obtain ⟨b2, hfb, hget1, hget2⟩ := hidx j2 item hj2
            refine ⟨b2, ?_, ?_, ?_⟩
            · have harith : k + (j2 + 1) = (k + 1) + j2 := by omega
              rw [harith]
              exact hfb
            · have harith : 2 * (j2 + 1) = 2 * j2 + 1 + 1 := by omega
              rw [harith]
              simpa using hget1
            · have harith : 2 * (j2 + 1) + 1 = 2 * j2 + 1 + 1 + 1 := by omega
              rw [harith]
              simpa using hget2

/-! ### Claims -/

/-- Claim C2: whenever the caller omits `returnDate` (the Python value
`None`), the outgoing upstream query field `endDt` is the empty string, for
every trip type (round-trip or one-way) and every other input. -/
theorem C2_omitted_return_date_endDt_empty (req : SearchRequest) (ts : String) :
    (buildParams { req with return_date := none } ts).endDt = "" := rfl

/-- Claim C7: for every departure or return date string, the normalized
tokens `startDt` and `endDt` sent upstream equal the input with all hyphens
removed — a literal character deletion; in particular `2026-03-03` becomes
`20260303`. -/
theorem C7_hyphen_stripping (req : SearchRequest) (ts d r : String) :
    (buildParams { req with departure_date := d } ts).startDt = removeHyphens d
    ∧ (buildParams { req with return_date := some r } ts).endDt = removeHyphens r
    ∧ removeHyphens "2026-03-03" = "20260303" := by
  refine ⟨pyStrReplace_dash d, ?_, rfl⟩
  show (if r = "" then "" else pyStrReplace r "-" "") = removeHyphens r
  by_cases hr : r = ""
  · subst hr
    rfl
  · rw [if_neg hr, pyStrReplace_dash]

/-- Claim C8: for every input, one-way trips send empty return-leg city
fields `sCity2`/`eCity2`, and round trips send the swapped airport codes
(`sCity2` = arrival city, `eCity2` = departure city). -/
theorem C8_return_leg_cities (req : SearchRequest) (ts : String) :
    (buildParams { req with trip_type := "OW" } ts).sCity2 = ""
    ∧ (buildParams { req with trip_type := "OW" } ts).eCity2 = ""
    ∧ (buildParams { req with trip_type := "RT" } ts).sCity2 = req.arrival_city
    ∧ (buildParams { req with trip_type := "RT" } ts).eCity2 = req.departure_city :=
  ⟨rfl, rfl, rfl, rfl⟩

/-- Claim C1: for every input and upstream outcome — connection failure or
timeout or non-2xx status (all raising `httpx.HTTPError`), a non-JSON body,
a parsed body whether its inspection succeeds or raises, or any other
exception — `search_flights` resolves to a returned string and never raises
past its boundary; failure outcomes begin with the error-indicating prefix
of their category. -/
theorem C1_error_boundary (req : SearchRequest) (ts : String) :
    (∀ msg, searchFlights req ts (.httpError msg)
      = "Error fetching flight data: " ++ msg)
    ∧ (∀ body, searchFlights req ts (.nonJsonBody body)
      = "Error: API returned non-JSON response. Content start: " ++ body.take 200)
    ∧ (∀ msg, searchFlights req ts (.otherException msg)
      = "An unexpected error occurred: " ++ msg)
    ∧ (∀ data s, handleParsed req.raw_json data = Except.ok s →
      searchFlights req ts (.parsed data) = s)
    ∧ (∀ data e, handleParsed req.raw_json data = Except.error e →
      searchFlights req ts (.parsed data) = "An unexpected error occurred: " ++ e) := by
  refine ⟨fun msg => rfl, fun body => rfl, fun msg => rfl, ?_, ?_⟩
  · intro data s h
    simp [searchFlights, h]
  · intro data e h
    simp [searchFlights, h]

/-- Witness for C1: a simulated timeout yields the HTTP-error string, and a
parsed body whose inspection raises (a JSON array has no `.get`) yields the
generic boundary string. -/
theorem C1_error_boundary_witness :
    searchFlights defaultRequest "1700000000000" (.httpError "Request timed out")
      = "Error fetching flight data: Request timed out"
    ∧ searchFlights defaultRequest "1700000000000" (.parsed (Json.arr []))
      = "An unexpected error occurred: AttributeError: list object has no attribute get" := by
  have h := C1_error_boundary defaultRequest "1700000000000"
  refine ⟨(h.1 "Request timed out").trans rfl, ?_⟩
  exact (h.2.2.2.2 (Json.arr [])
    "AttributeError: list object has no attribute get" rfl).trans rfl

/-- Claim C3: for a parsed response with summary error-count `"OK"` and a
non-empty offer list, the output is the header, then the formatted blocks of
the first ten offers in original order (each offer `j` rendered by
`formatBlock j` at position `2 * j`, so no re-sorting), then the trailing
remainder line exactly when the list has more than ten items; with 15 items
this is exactly 10 offer blocks and a trailing line noting 5 more. -/
theorem C3_top_ten_and_remainder (req : SearchRequest) (ts : String)
    (data summary goodsList : Json) (goods : List Json) (blocks : List String)
    (hraw : req.raw_json = false)
    (hs : pyGet data "GoodsSummary" (Json.obj []) = Except.ok summary)
    (hok : pyGet summary "errCnt" Json.null = Except.ok (Json.str "OK"))
    (hgl : pyGet data "GoodsList" (Json.obj []) = Except.ok goodsList)
    (hg : pyGet goodsList "Goods" (Json.arr []) = Except.ok (Json.arr goods))
    (hne : goods ≠ [])
    (hblocks : formatBlocks 0 (goods.take 10) = Except.ok blocks) :
    searchFlights req ts (.parsed data)
      = pyJoin "\n" (("Found " ++ toString goods.length ++ " flight offers.")
          :: dashes 50
          :: (blocks ++ (if 10 < goods.length
              then ["... and " ++ toString (goods.length - 10) ++ " more results."]
              else [])))
    ∧ blocks.length = 2 * (goods.take 10).length
    ∧ (∀ j item, j < 10 → goods[j]? = some item →
        ∃ b, formatBlock j item = Except.ok b
          ∧ blocks[2 * j]? = some b ∧ blocks[2 * j + 1]? = some (dashes 30)) := by
  have hspec := formatBlocks_spec (goods.take 10) 0 blocks hblocks
  refine ⟨?_, hspec.1, ?_⟩
  · have htr : pyTruthy (Json.arr goods) = true := by
      cases goods with
      | nil => exact absurd rfl hne
      | cons a l => rfl
    have hlen : pyLen (Json.arr goods) = Except.ok goods.length := rfl
    have hslice : pySliceList (Json.arr goods) 10 = Except.ok (goods.take 10) := rfl
    simp [searchFlights, handleParsed, jsonEqStr, hraw, hs, hok, hgl, hg, htr,
      hlen, hslice, hblocks]
  · intro j item hj hit
    have htake : (goods.take 10)[j]? = some item := by
      rw [List.getElem?_take, if_pos hj, hit]
    obtain ⟨b, hb, h1, h2⟩ := hspec.2 j item htake
    exact ⟨b, by simpa using hb, h1, h2⟩

/-- Witness for C3: the mocked 15-offer response yields the header, the ten
blocks of offers `A1` ... `A10` with separators (20 result entries), and the
trailing `... and 5 more results.` line. -/
theorem C3_top_ten_and_remainder_witness :
    searchFlights defaultRequest "1700000000000" (.parsed data15)
      = pyJoin "\n" (("Found " ++ toString (15 : Nat) ++ " flight offers.")
          :: dashes 50
          :: (blocks15 ++ ["... and " ++ toString (5 : Nat) ++ " more results."]))
    ∧ blocks15.length = 20 := by
  have h := C3_top_ten_and_remainder defaultRequest "1700000000000" data15
    (Json.obj [("errCnt", Json.str "OK")]) (Json.obj [("Goods", Json.arr goods15)])
    goods15 blocks15 rfl rfl rfl rfl rfl (fun hcon => List.noConfusion hcon) rfl
  exact ⟨h.1.trans rfl, h.2.1.trans rfl⟩

/-- Claim C4: for every offer whose fare components are integers (a missing
component defaulting to `0`) and with no discount list, the rendered price
line shows the numeric sum `saleFare + tax + qCharge` with thousands
separators and the `KRW` suffix. -/
theorem C4_total_base_fare (i : Nat) (item : Json) (sf tx qc : Int)
    (al sr rr bag ftd ffx : String) (evl ef : Json)
    (h_sf : pyGet item "SaleFare" (Json.int 0) = Except.ok (Json.int sf))
    (h_tx : pyGet item "Tax" (Json.int 0) = Except.ok (Json.int tx))
    (h_qc : pyGet item "Qcharge" (Json.int 0) = Except.ok (Json.int qc))
    (h_evl : pyGet item "EventFareList" (Json.obj []) = Except.ok evl)
    (h_ef : pyGet evl "EventFare" (Json.arr []) = Except.ok ef)
    (h_falsy : pyTruthy ef = false)
    (h_al : pyGet item "AirLineKor" (Json.str "Unknown Airline")
      = Except.ok (Json.str al))
    (h_sr : pyGet item "StartRoutine" (Json.str "") = Except.ok (Json.str sr))
    (h_rr : pyGet item "ReturnRoutine" (Json.str "") = Except.ok (Json.str rr))
    (h_bag : pyGet item "AdultBagInfo" (Json.str "N/A") = Except.ok (Json.str bag))
    (h_ftd : pyGet item "FareTypeDesc" (Json.str "") = Except.ok (Json.str ftd))
    (h_ffx : pyGet item "FareFix" (Json.str "") = Except.ok (Json.str ffx)) :
    formatBlock i item = Except.ok (pyJoin "\n"
      ["[" ++ toString (i + 1) ++ "] " ++ al,
       "   Route: " ++ sr ++ " / " ++ rr,
       "   Price: " ++ intCommaStr (sf + tx + qc) ++ " KRW",
       "   Baggage: " ++ bag,
       "   Fare Type: " ++ ftd ++ " (" ++ ffx ++ ")"]) := by
  simp [formatBlock, h_al, h_sr, h_rr, h_sf, h_tx, h_qc, h_evl, h_ef, h_falsy,
    pyAdd, pyIntLike, pyFormatComma, h_bag, h_ftd, h_ffx, pyStr]

/-- Witness for C4: the offer `saleFare=500000, tax=50000, qCharge=10000`
with no discount list renders the price line `   Price: 560,000 KRW`. -/
theorem C4_total_base_fare_witness :
    formatBlock 0 offer560 = Except.ok
      ("[1] Unknown Airline\n   Route:  / " ++
        "\n   Price: 560,000 KRW\n   Baggage: N/A\n   Fare Type:  ()") := by
  have h := C4_total_base_fare 0 offer560 500000 50000 10000
    "Unknown Airline" "" "" "N/A" "" "" (Json.obj []) (Json.arr [])
    rfl rfl rfl rfl rfl rfl rfl rfl rfl rfl rfl rfl
  exact h.trans rfl

/-- Claim C5: a parsed response (with `raw_json` false) whose summary
error-count does not equal `"OK"` yields `"API Error: "` followed by the
embedded error message (the generic default `"Unknown error"` standing in
when the message is absent). -/
theorem C5_api_error_message (req : SearchRequest) (ts : String)
    (data summary ec em : Json)
    (hraw : req.raw_json = false)
    (hs : pyGet data "GoodsSummary" (Json.obj []) = Except.ok summary)
    (hec : pyGet summary "errCnt" Json.null = Except.ok ec)
    (hne : jsonEqStr ec "OK" = false)
    (hem : pyGet summary "errMsg" (Json.str "Unknown error") = Except.ok em) :
    searchFlights req ts (.parsed data) = "API Error: " ++ pyStr em := by
  simp [searchFlights, handleParsed, hraw, hs, hec, hne, hem]

/-- Witness for C5: error-count `"ERROR"` with message `"No fares found"`
yields exactly `API Error: No fares found`. -/
theorem C5_api_error_message_witness :
    searchFlights defaultRequest "1700000000000" (.parsed dataNoFares)
      = "API Error: No fares found" := by
  have h := C5_api_error_message defaultRequest "1700000000000" dataNoFares
    (Json.obj [("errCnt", Json.str "ERROR"), ("errMsg", Json.str "No fares found")])
    (Json.str "ERROR") (Json.str "No fares found") rfl rfl rfl rfl rfl
  exact h.trans rfl

/-- Claim C6: a parsed response (with `raw_json` false) whose summary
error-count equals `"OK"` but whose offer list is empty or absent (any
falsy `Goods` value, in particular a missing key defaulting to `[]`) yields
exactly the fixed no-results message. -/
theorem C6_no_flights_message (req : SearchRequest) (ts : String)
    (data summary goodsList gj : Json)
    (hraw : req.raw_json = false)
    (hs : pyGet data "GoodsSummary" (Json.obj []) = Except.ok summary)
    (hok : pyGet summary "errCnt" Json.null = Except.ok (Json.str "OK"))
    (hgl : pyGet data "GoodsList" (Json.obj []) = Except.ok goodsList)
    (hg : pyGet goodsList "Goods" (Json.arr []) = Except.ok gj)
    (hempty : pyTruthy gj = false) :
    searchFlights req ts (.parsed data)
      = "No flights found for the given criteria." := by
  simp [searchFlights, handleParsed, jsonEqStr, hraw, hs, hok, hgl, hg, hempty]

/-- Witness for C6: `errCnt = "OK"` with an empty `Goods` list yields the
no-results message. -/
theorem C6_no_flights_message_witness :
    searchFlights defaultRequest "1700000000000" (.parsed dataEmptyGoods)
      = "No flights found for the given criteria." :=
  C6_no_flights_message defaultRequest "1700000000000" dataEmptyGoods
    (Json.obj [("errCnt", Json.str "OK")]) (Json.obj [("Goods", Json.arr [])])
    (Json.arr []) rfl rfl rfl rfl rfl rfl

/-- Claim C9: with `raw_json` true, `search_flights` returns the parsed
document re-serialized by `json.dumps(indent=2, ensure_ascii=False)` for
every parsed document, independently of the offer list or summary contents;
the concrete sample shows the two-space indentation and the Korean text
preserved verbatim rather than escaped. -/
theorem C9_raw_json_passthrough (req : SearchRequest) (ts : String) (data : Json) :
    searchFlights { req with raw_json := true } ts (.parsed data) = pyJsonDumps data
    ∧ pyJsonDumps koreanSample
      = "\x7b\n  \"errMsg\": \"요금 없음\",\n  \"cnt\": 5\n\x7d" := by
  constructor
  · rfl
  · rfl

/-- Claim C10: a parsed JSON object (with `raw_json` false) that lacks the
`GoodsSummary` key entirely is treated as an upstream business error: the
absent summary defaults to `{}`, its `errCnt` lookup yields `None`, the
`"OK"` comparison fails, and the output is exactly `API Error: Unknown
error` — never the success or empty-result outcome. -/
theorem C10_missing_summary_block (req : SearchRequest) (ts : String)
    (fields : List (String × Json))
    (hraw : req.raw_json = false)
    (hno : jlookup fields "GoodsSummary" = none) :
    searchFlights req ts (.parsed (Json.obj fields))
      = "API Error: Unknown error" := by
  simp [searchFlights, handleParsed, hraw, pyGet, hno, jlookup, jsonEqStr, pyStr]

/-- Witness for C10: the empty JSON object yields `API Error: Unknown error`. -/
theorem C10_missing_summary_block_witness :
    searchFlights defaultRequest "1700000000000" (.parsed (Json.obj []))
      = "API Error: Unknown error" :=
  C10_missing_summary_block defaultRequest "1700000000000" [] rfl rfl

end FlightSearch
